import Mathlib

/-!
# BATHRON DEX — HTLC atomic-swap settlement core: a shallow embedding

This file embeds, in Lean, the Python functions of the BATHRON DEX
settlement core that the verified claims are about:

* `contrib/dex/sdk/htlc_wrapper.py` — `HTLCWrapper.verify_preimage`,
  `HTLCWrapper.is_claimable`, `HTLCWrapper.is_refundable`;
* `contrib/dex/sdk/server.py` — the module-level timelock-policy assert,
  `api_swap_status` state derivation, `api_register_swap`;
* `contrib/dex/swap_watcher.py` — `derive_states`, the
  `/api/register_taker` handler;
* `contrib/dex/lp_watcher.py` — `LPWatcher.process_new_lock`,
  `LPWatcher.try_create_kpiv_htlc`, `LPWatcher.check_for_reveals`,
  `EVMMonitor.claim_usdc`;
* `contrib/dex/lp_bot.py` — `LPBot.extract_preimage_from_scriptsig`.

Machine bytes are `Nat` below 256, 32-bit words are `Nat` with explicit
`% 2^32`, Python `int` timestamps and heights are `Int`, Python `float`
amounts are `Rat` (the only amount arithmetic on the embedded code paths
is one exact division by the constant price 0.05 = 1/20).  RPC and chain
queries are passed in as explicit oracle functions.  SHA-256 is
implemented concretely (FIPS 180-4) so that hash values evaluate.
-/

set_option maxRecDepth 100000

namespace Bathron

/-! ## Bytes and hex strings

Python `bytes.fromhex` accepts an even number of hex digits with ASCII
spaces permitted between byte pairs, and raises `ValueError` otherwise
(modelled as `none`).  `bytes.hex()` produces lowercase hex. -/

def hexDigitVal (c : Char) : Option Nat :=
  if 48 ≤ c.toNat ∧ c.toNat ≤ 57 then some (c.toNat - 48)
  else if 97 ≤ c.toNat ∧ c.toNat ≤ 102 then some (c.toNat - 87)
  else if 65 ≤ c.toNat ∧ c.toNat ≤ 70 then some (c.toNat - 55)
  else none

def hexDecodeChars : List Char → Option (List Nat)
  | [] => some []
  | c :: rest =>
    if c = ' ' then hexDecodeChars rest
    else
      match rest with
      | [] => none
      | d :: rest2 =>
        match hexDigitVal c, hexDigitVal d with
        | some hi, some lo => (hexDecodeChars rest2).map (fun bs => (16 * hi + lo) :: bs)
        | _, _ => none

/-- Python `bytes.fromhex`, returning `none` where Python raises. -/
def hexDecode (s : String) : Option (List Nat) :=
  hexDecodeChars s.data

def hexDigitChars : List Char := "0123456789abcdef".data

def byteToHex (b : Nat) : List Char :=
  [hexDigitChars.getD (b / 16 % 16) '0', hexDigitChars.getD (b % 16) '0']

/-- Python `bytes.hex()` (lowercase). -/
def bytesToHex (bs : List Nat) : String :=
  ⟨(bs.map byteToHex).flatten⟩

/-- ASCII lowercase of a character (what Python `str.lower()` does on the
hex-digit strings this code handles). -/
def lowerChar (c : Char) : Char :=
  if 65 ≤ c.toNat ∧ c.toNat ≤ 90 then Char.ofNat (c.toNat + 32) else c

/-- Python `str.lower()` restricted to ASCII. -/
def strLower (s : String) : String := ⟨s.data.map lowerChar⟩

def listStartsWith : List Char → List Char → Bool
  | _, [] => true
  | [], _ :: _ => false
  | a :: as, b :: bs => (a = b) && listStartsWith as bs

/-- Python `str.startswith` (over the character list). -/
def strStartsWith (s p : String) : Bool := listStartsWith s.data p.data

/-- Python `str[n:]` (over the character list). -/
def strDrop (s : String) (n : Nat) : String := ⟨s.data.drop n⟩

/-! ## SHA-256 (FIPS 180-4), over byte lists -/

def add32 (a b : Nat) : Nat := (a + b) % 4294967296

def rotr32 (n x : Nat) : Nat := ((x >>> n) ||| (x <<< (32 - n))) % 4294967296

def smallSigma0 (x : Nat) : Nat := (rotr32 7 x) ^^^ (rotr32 18 x) ^^^ (x >>> 3)
def smallSigma1 (x : Nat) : Nat := (rotr32 17 x) ^^^ (rotr32 19 x) ^^^ (x >>> 10)
def bigSigma0 (x : Nat) : Nat := (rotr32 2 x) ^^^ (rotr32 13 x) ^^^ (rotr32 22 x)
def bigSigma1 (x : Nat) : Nat := (rotr32 6 x) ^^^ (rotr32 11 x) ^^^ (rotr32 25 x)

def chFn (e f g : Nat) : Nat := (e &&& f) ^^^ ((e ^^^ 4294967295) &&& g)
def majFn (a b c : Nat) : Nat := (a &&& b) ^^^ (a &&& c) ^^^ (b &&& c)

def sha256K : List Nat :=
  [1116352408, 1899447441, 3049323471, 3921009573, 961987163,
   1508970993, 2453635748, 2870763221, 3624381080, 310598401,
   607225278, 1426881987, 1925078388, 2162078206, 2614888103,
   3248222580, 3835390401, 4022224774, 264347078, 604807628,
   770255983, 1249150122, 1555081692, 1996064986, 2554220882,
   2821834349, 2952996808, 3210313671, 3336571891, 3584528711,
   113926993, 338241895, 666307205, 773529912, 1294757372,
   1396182291, 1695183700, 1986661051, 2177026350, 2456956037,
   2730485921, 2820302411, 3259730800, 3345764771, 3516065817,
   3600352804, 4094571909, 275423344, 430227734, 506948616,
   659060556, 883997877, 958139571, 1322822218, 1537002063,
   1747873779, 1955562222, 2024104815, 2227730452, 2361852424,
   2428436474, 2756734187, 3204031479, 3329325298]

def sha256InitH : List Nat :=
  [1779033703, 3144134277, 1013904242, 2773480762, 1359893119,
   2600822924, 528734635, 1541459225]

def be64 (n : Nat) : List Nat :=
  [(n >>> 56) % 256, (n >>> 48) % 256, (n >>> 40) % 256, (n >>> 32) % 256,
   (n >>> 24) % 256, (n >>> 16) % 256, (n >>> 8) % 256, n % 256]

def be32 (n : Nat) : List Nat :=
  [(n >>> 24) % 256, (n >>> 16) % 256, (n >>> 8) % 256, n % 256]

def sha256Pad (msg : List Nat) : List Nat :=
  let L := msg.length
  let zeros := (120 - ((L + 1) % 64)) % 64
  msg ++ [128] ++ List.replicate zeros 0 ++ be64 (8 * L)

/-- Split a list into chunks of `n`; `fuel` bounds the recursion
(`fuel ≥ l.length` suffices when `1 ≤ n`). -/
def chunkAux (fuel n : Nat) (l : List Nat) : List (List Nat) :=
  match fuel, l with
  | 0, _ => []
  | _, [] => []
  | f + 1, x :: xs => (x :: xs).take n :: chunkAux f n ((x :: xs).drop n)

def toWords (block : List Nat) : List Nat :=
  (chunkAux block.length 4 block).map fun c =>
    match c with
    | [b0, b1, b2, b3] => (b0 <<< 24) + (b1 <<< 16) + (b2 <<< 8) + b3
    | _ => 0

def extendW (w : List Nat) : Nat → List Nat
  | 0 => w
  | n + 1 =>
    extendW
      (w ++ [add32
        (add32 (smallSigma1 (w.getD (w.length - 2) 0)) (w.getD (w.length - 7) 0))
        (add32 (smallSigma0 (w.getD (w.length - 15) 0)) (w.getD (w.length - 16) 0))]) n

def roundStep (st : List Nat) (kw : Nat × Nat) : List Nat :=
  match st with
  | [a, b, c, d, e, f, g, h] =>
    let t1 := add32 h (add32 (bigSigma1 e) (add32 (chFn e f g) (add32 kw.1 kw.2)))
    let t2 := add32 (bigSigma0 a) (majFn a b c)
    [add32 t1 t2, a, b, c, add32 d t1, e, f, g]
  | other => other

def compressBlock (h : List Nat) (block : List Nat) : List Nat :=
  let w := extendW (toWords block) 48
  let st := (sha256K.zip w).foldl roundStep h
  List.zipWith add32 h st

def sha256Bytes (msg : List Nat) : List Nat :=
  let padded := sha256Pad msg
  let blocks := chunkAux padded.length 64 padded
  ((blocks.foldl compressBlock sha256InitH).map be32).flatten

/-- `hashlib.sha256(msg).hexdigest()`. -/
def sha256Hex (msg : List Nat) : String :=
  bytesToHex (sha256Bytes msg)

/-! ## `HTLCWrapper.verify_preimage` (sdk/htlc_wrapper.py lines 78-94)

```python
try:
    computed = hashlib.sha256(bytes.fromhex(preimage)).hexdigest()
    return computed.lower() == hashlock.lower()
except:
    return False
```
(`computed` is already lowercase hex, so `.lower()` on it is the
identity; the `except` catches exactly the `bytes.fromhex` failure.) -/

def verify_preimage (hashlock preimage : String) : Bool :=
  match hexDecode preimage with
  | some bs => sha256Hex bs == strLower hashlock
  | none => false

/-! ## Timelock policy (sdk/server.py lines 53-63)

```python
T_KPIV_SECONDS = 2 * 60 * 60
T_USDC_SECONDS = 4 * 60 * 60
T_BUFFER_SECONDS = 30 * 60
T_KPIV_BLOCKS = 120
assert T_USDC_SECONDS >= T_KPIV_SECONDS + T_BUFFER_SECONDS, "TIMELOCK ERROR: ..."
```
A failing `assert` at module load raises `AssertionError` and the server
process dies; this is modelled by `Except`. -/

def T_KPIV_SECONDS : Nat := 2 * 60 * 60
def T_USDC_SECONDS : Nat := 4 * 60 * 60
def T_BUFFER_SECONDS : Nat := 30 * 60
def T_KPIV_BLOCKS : Nat := 120

def timelockAssert (tUsdc tKpiv tBuffer : Nat) : Except String Unit :=
  if tKpiv + tBuffer ≤ tUsdc then Except.ok ()
  else Except.error "TIMELOCK ERROR: T_USDC must be >= T_KPIV + BUFFER"

/-- The assert executed at module load of the SDK server, with the
shipped constants. -/
def sdkServerInit : Except String Unit :=
  timelockAssert T_USDC_SECONDS T_KPIV_SECONDS T_BUFFER_SECONDS

/-! ## Swap state machine (swap_watcher.py lines 81-108, 262-316) -/

/-- Python truthiness of an `Optional[str]`: `None` and `""` are falsy. -/
def pyTruthyStr (o : Option String) : Bool :=
  match o with
  | none => false
  | some s => !(s == "")

structure SwapState where
  swap_id : String := ""
  hashlock : String := ""
  piv_lot_outpoint : Option String := none
  piv_amount : Rat := 0
  piv_lot_status : String := "unknown"
  piv_expiry_blocks : Int := 0
  evm_locked : Bool := false
  evm_amount : Rat := 0
  evm_claimed : Bool := false
  evm_refunded : Bool := false
  evm_timelock : Int := 0
  evm_time_left : Int := 0
  taker_state : String := "browse"
  taker_action : String := "Select a LOT"
  lp_state : String := "inventory"
  lp_action : String := "Wait for taker"
  secret_revealed : Bool := false
  secret : Option String := none
deriving Repr, DecidableEq

/-- `state.evm_time_left = max(0, state.evm_timelock - int(time.time()))`
(compute_swap_state, line 265). -/
def evmTimeLeft (timelock now : Int) : Int := max 0 (timelock - now)

/-- The LP half of `derive_states`: the `(lp_state, lp_action)` pair it
assigns; the final fall-through keeps the incoming values (Python leaves
the fields untouched when no branch matches). -/
def lpPairOf (s : SwapState) : String × String :=
  if s.piv_lot_status = "expired" then ("expired", "Refund your KPIV")
  else if s.evm_claimed then ("claimed", "Done! USDC claimed")
  else if s.evm_locked ∧ pyTruthyStr s.secret then ("taken", "Claim USDC now!")
  else if s.evm_locked then ("taken", "Taker locked funds - claim when ready")
  else if pyTruthyStr s.piv_lot_outpoint then ("inventory", "Waiting for taker")
  else (s.lp_state, s.lp_action)

/-- The taker half of `derive_states`. -/
def takerPairOf (s : SwapState) : String × String :=
  if s.piv_lot_status = "claimed" then ("completed", "Done! KPIV received")
  else if s.secret_revealed ∧ s.evm_locked then ("claimable", "Claim KPIV now!")
  else if s.evm_locked ∧ s.evm_time_left ≤ 0 then ("refundable", "Timeout - refund your USDC")
  else if s.evm_locked then
    ("locked", "Waiting for LP (" ++ toString (s.evm_time_left / 3600) ++ "h left)")
  else if pyTruthyStr s.piv_lot_outpoint then ("browse", "Lock USDC to start swap")
  else (s.taker_state, s.taker_action)

/-- `derive_states` (swap_watcher.py lines 279-316).  The Python code
mutates only the four derived fields; the LP block writes fields the
taker block never reads, so the two blocks compose as below. -/
def derive_states (s : SwapState) : SwapState :=
  let lp := lpPairOf s
  let tk := takerPairOf s
  { s with lp_state := lp.1, lp_action := lp.2, taker_state := tk.1, taker_action := tk.2 }

/-! ## Native HTLC records and `is_claimable` / `is_refundable`
(sdk/htlc_wrapper.py lines 215-263)

Both methods call `self.get(outpoint)` and `self.rpc.getblockcount()`;
the record found (or `none`) and the current height are passed here as
arguments.  Missing dict keys default as in Python `.get`. -/

structure NativeHtlc where
  outpoint : String := ""
  hashlock : String := ""
  status : String := ""
  preimage : Option String := none
  expiry_height : Int := 0
deriving Repr, DecidableEq

def is_claimable (htlc : Option NativeHtlc) (current_height : Int) : Bool :=
  match htlc with
  | none => false
  | some h =>
    if ¬(h.status = "pending" ∨ h.status = "locked") then false
    else if h.expiry_height ≤ current_height then false
    else true

def is_refundable (htlc : Option NativeHtlc) (current_height : Int) : Bool :=
  match htlc with
  | none => false
  | some h =>
    if h.status = "claimed" ∨ h.status = "refunded" then false
    else if current_height < h.expiry_height then false
    else true

/-! ## `api_swap_status` state derivation (sdk/server.py lines 497-519) -/

structure EvmHtlc where
  sender : String := ""
  recipient : String := ""
  token : String := ""
  amount : Rat := 0
  hashlock : String := ""
  timelock : Int := 0
  withdrawn : Bool := false
  refunded : Bool := false
deriving Repr, DecidableEq

/-- The `state` string computed by `api_swap_status` from the Polygon
HTLC view (`htlc_state`), the registered swap's `kpiv_sent` flag and the
current time. -/
def apiSwapState (htlc : Option EvmHtlc) (kpivSent : Bool) (now : Int) : String :=
  match htlc with
  | none => "UNKNOWN"
  | some h =>
    if h.refunded then "REFUNDED"
    else if h.withdrawn then "COMPLETED"
    else if h.timelock < now then "REFUNDABLE"
    else if kpivSent then "CLAIMABLE"
    else "LOCKED"

/-! ## Association-list maps (Python dicts keyed by strings) -/

def lookupKey {α : Type} : List (String × α) → String → Option α
  | [], _ => none
  | (k2, v) :: rest, k => if k2 = k then some v else lookupKey rest k

def setKey {α : Type} : List (String × α) → String → α → List (String × α)
  | [], k, v => [(k, v)]
  | (k2, v2) :: rest, k, v =>
    if k2 = k then (k, v) :: rest else (k2, v2) :: setKey rest k v

def containsKeyB {α : Type} (m : List (String × α)) (k : String) : Bool :=
  (lookupKey m k).isSome

/-! ## Taker registration (swap_watcher.py lines 409-437) -/

/-- `hashlock.lower()` then strip a leading `"0x"` (the normalisation in
the `/api/register_taker` handler). -/
def normalizeHashlock (h : String) : String :=
  let l := strLower h
  if strStartsWith l "0x" then strDrop l 2 else l

/-- The `/api/register_taker` POST handler: returns the updated
`taker_registry` and either an error `(status, message)` or the success
payload `(hashlock, kpiv_address)`.  Note the final line of the source
is an unconditional `taker_registry[hashlock] = kpiv_address`. -/
def register_taker (reg : List (String × String))
    (hashlock kpiv_address : Option String) :
    List (String × String) × Except (Nat × String) (String × String) :=
  if ¬(pyTruthyStr hashlock) ∨ ¬(pyTruthyStr kpiv_address) then
    (reg, Except.error (400, "Missing hashlock or kpiv_address"))
  else
    let h := normalizeHashlock (hashlock.getD "")
    if h.length ≠ 64 then
      (reg, Except.error (400, "Invalid hashlock length (must be 64 hex chars)"))
    else
      (setKey reg h (kpiv_address.getD ""), Except.ok (h, kpiv_address.getD ""))

/-! ## `api_register_swap` (sdk/server.py lines 535-568) -/

structure RegisteredSwap where
  hashlock : String
  taker_kpiv_addr : String
  lot_id : String
  registered_at : Int
  kpiv_sent : Bool
deriving Repr, DecidableEq

/-- The `/api/register` POST handler of the SDK server: stores
`pending_swaps[hashlock] = {...}` unconditionally after field and
address-format validation. -/
def api_register_swap (pending : List (String × RegisteredSwap))
    (hashlock taker_kpiv_addr lot_id : Option String) (now : Int) :
    List (String × RegisteredSwap) × Except (Nat × String) String :=
  if ¬(pyTruthyStr hashlock ∧ pyTruthyStr taker_kpiv_addr ∧ pyTruthyStr lot_id) then
    (pending, Except.error (400, "Missing required fields"))
  else
    let h := hashlock.getD ""
    let addr := taker_kpiv_addr.getD ""
    if ¬(strStartsWith addr "x" ∨ strStartsWith addr "y") then
      (pending, Except.error (400, "Invalid BATHRON address format"))
    else
      (setKey pending h
        { hashlock := h, taker_kpiv_addr := addr, lot_id := lot_id.getD ""
          registered_at := now, kpiv_sent := false },
       Except.ok h)

/-! ## LP watcher (lp_watcher.py)

The watcher talks to the outside world through: the swap-watcher taker
registry (`get_taker_kpiv_address`), the `htlc_create_kpiv` RPC, the
`htlc_list <hashlock>` RPC, and the EVM claim transaction.  These are
oracle functions below.  The chain-visible effects — native HTLCs
created and USDC claim transactions sent — are accumulated in the state
so that theorems can speak about them. -/

def LP_PRICE : Rat := 1 / 20

def strip0x (h : String) : String :=
  if strStartsWith h "0x" then strDrop h 2 else h

structure LockEvent where
  swap_id : String := ""
  sender : String := ""
  token : String := ""
  amount : Rat := 0
  hashlock : String := ""
  timelock : Int := 0
  tx_hash : String := ""
deriving Repr, DecidableEq

structure PendingSwap where
  hashlock : String := ""
  polygon_swap_id : String := ""
  usdc_amount : Rat := 0
  kpiv_amount : Rat := 0
  polygon_timelock : Int := 0
  kpiv_htlc_outpoint : String := ""
  kpiv_htlc_created : Bool := false
  preimage_revealed : String := ""
  usdc_claimed : Bool := false
  created_at : Int := 0
deriving Repr, DecidableEq

/-- A successful `htlc_create_kpiv` call, i.e. a native HTLC created on
the BATHRON chain. -/
structure CreatedHtlc where
  hashlock : String
  amount : Rat
  recipient : String
  expiry_blocks : Nat
  txid : String
deriving Repr, DecidableEq

structure LPWatcherState where
  pending : List (String × PendingSwap) := []
  createdHtlcs : List CreatedHtlc := []
  submittedClaims : List (String × String) := []
deriving Repr, DecidableEq

structure LPOracles where
  /-- `/api/taker_address?hashlock=...` keyed by the 0x-stripped hashlock. -/
  takerRegistry : String → Option String
  /-- `htlc_create_kpiv hashlock amount recipient expiry` → `txid` on
  success, `none` on RPC failure. -/
  createRpc : String → Rat → String → Nat → Option String
  /-- `bathron_rpc("htlc_list", hashlock)`. -/
  htlcList : String → List NativeHtlc
  /-- `EVMMonitor.private_key`; empty disables auto-claim. -/
  evmPrivateKey : String
  /-- `send_raw_transaction` of the built claim: `swap_id preimage` →
  tx hash on success. -/
  sendClaimTx : String → String → Option String

/-- `get_taker_kpiv_address` (lp_watcher.py lines 211-226). -/
def get_taker_kpiv_address (o : LPOracles) (hashlock : String) : Option String :=
  o.takerRegistry (strip0x hashlock)

/-- `create_kpiv_htlc` (lp_watcher.py lines 164-180): runs the RPC and,
on success, the HTLC exists on chain (recorded in `createdHtlcs`). -/
def create_kpiv_htlc (o : LPOracles) (st : LPWatcherState) (amount : Rat)
    (hashlock taker_address : String) (expiry_blocks : Nat) :
    LPWatcherState × Option String :=
  match o.createRpc hashlock amount taker_address expiry_blocks with
  | some txid =>
    ({ st with createdHtlcs :=
        st.createdHtlcs ++ [⟨hashlock, amount, taker_address, expiry_blocks, txid⟩] },
     some txid)
  | none => (st, none)

/-- `LPWatcher.try_create_kpiv_htlc` (lp_watcher.py lines 467-495).  The
call `create_kpiv_htlc(swap.kpiv_amount, hashlock_hex, taker_kpiv_address)`
uses the default `expiry_blocks=120`.  (`notify_trade_executed` only
updates the off-chain order book and is not modelled.) -/
def try_create_kpiv_htlc (o : LPOracles) (st : LPWatcherState)
    (hashlock : String) : LPWatcherState :=
  match lookupKey st.pending hashlock with
  | none => st
  | some swap =>
    if swap.kpiv_htlc_created then st
    else
      match get_taker_kpiv_address o swap.hashlock with
      | none => st
      | some taker_addr =>
        let hashlock_hex := strip0x swap.hashlock
        match create_kpiv_htlc o st swap.kpiv_amount hashlock_hex taker_addr 120 with
        | (st2, some txid) =>
          let swap2 := { swap with kpiv_htlc_outpoint := txid ++ ":0", kpiv_htlc_created := true }
          { st2 with pending := setKey st2.pending hashlock swap2 }
        | (st2, none) => st2

/-- `LPWatcher.process_new_lock` (lp_watcher.py lines 439-465). -/
def process_new_lock (o : LPOracles) (st : LPWatcherState) (lock : LockEvent)
    (now : Int) : LPWatcherState :=
  if containsKeyB st.pending lock.hashlock then st
  else
    let kpiv_amount := lock.amount / LP_PRICE
    let swap : PendingSwap :=
      { hashlock := lock.hashlock, polygon_swap_id := lock.swap_id
        usdc_amount := lock.amount, kpiv_amount := kpiv_amount
        polygon_timelock := lock.timelock, created_at := now }
    let st1 := { st with pending := st.pending ++ [(lock.hashlock, swap)] }
    try_create_kpiv_htlc o st1 lock.hashlock

/-- `get_htlc_by_hashlock` (lp_watcher.py lines 182-191): prefers an
entry with status `"claimed"`, otherwise the first entry. -/
def get_htlc_by_hashlock (o : LPOracles) (hashlock : String) : Option NativeHtlc :=
  match o.htlcList hashlock with
  | [] => none
  | first :: _ =>
    match (o.htlcList hashlock).find? (fun r => r.status == "claimed") with
    | some r => some r
    | none => some first

/-- `EVMMonitor.claim_usdc` (lp_watcher.py lines 390-422): with no
private key nothing is sent; otherwise the claim transaction carrying
the preimage is sent to the quote chain (recorded in
`submittedClaims` when the send succeeds). -/
def claim_usdc (o : LPOracles) (st : LPWatcherState) (swap_id preimage : String) :
    LPWatcherState × Option String :=
  if o.evmPrivateKey = "" then (st, none)
  else
    match o.sendClaimTx swap_id preimage with
    | some tx =>
      ({ st with submittedClaims := st.submittedClaims ++ [(swap_id, preimage)] }, some tx)
    | none => (st, none)

/-- One iteration of the `check_for_reveals` loop body for the pending
swap stored under `hashlock`. -/
def checkRevealStep (o : LPOracles) (st : LPWatcherState) (hashlock : String) :
    LPWatcherState :=
  match lookupKey st.pending hashlock with
  | none => st
  | some swap =>
    if swap.usdc_claimed then st
    else if ¬ swap.kpiv_htlc_created then st
    else
      let hashlock_hex := strip0x hashlock
      match get_htlc_by_hashlock o hashlock_hex with
      | none => st
      | some htlc =>
        if htlc.status = "claimed" then
          match htlc.preimage with
          | none => st
          | some p =>
            if p = "" then st
            else
              let swapR := { swap with preimage_revealed := p }
              let st1 := { st with pending := setKey st.pending hashlock swapR }
              match claim_usdc o st1 swap.polygon_swap_id p with
              | (st2, some _) =>
                let swapC := { swap with preimage_revealed := p, usdc_claimed := true }
                { st2 with pending := setKey st2.pending hashlock swapC }
              | (st2, none) => st2
        else st

/-- `LPWatcher.check_for_reveals` (lp_watcher.py lines 503-528), folding
the loop body over the snapshot of pending keys. -/
def check_for_reveals (o : LPOracles) (st : LPWatcherState) : LPWatcherState :=
  (st.pending.map Prod.fst).foldl (checkRevealStep o) st

/-! ## `LPBot.extract_preimage_from_scriptsig` (lp_bot.py lines 334-377)

The Python heuristic test on the hex string of a 32-byte push —
`preimage != "0"*64 and not preimage.startswith("02") and not
preimage.startswith("03")` — is stated here on the pushed bytes: the
hex of a byte list is 64 zeros iff the bytes are 32 zero bytes, and it
starts with `"02"`/`"03"` iff the first byte is 2/3 (each byte
contributes exactly two hex digits). -/

def scriptSigHeuristic (p : List Nat) : Bool :=
  !(p == List.replicate 32 0) && !(p.head? == some 2) && !(p.head? == some 3)

/-- Little-endian value of at most two bytes
(`int.from_bytes(data[pos:pos+2], 'little')` after Python slice
truncation). -/
def leBytes2 (l : List Nat) : Nat :=
  match l with
  | [] => 0
  | [a] => a
  | a :: b :: _ => a + 256 * b

/-- The `while pos < len(data)` loop.  `data[pos]` on an out-of-range
index raises `IndexError` (caught by the bare `except` → `None`); slices
truncate.  `fuel` only bounds the recursion: every iteration advances
`pos` by at least 1 and the loop stops as soon as `pos ≥ len(data)`, so
at most `data.length` iterations run plus one final test —
`data.length + 1` fuel (used by the caller below) never runs out, and a
run that exhausted fuel would return `none` exactly like the loop
falling off the end. -/
def extractLoopF (fuel : Nat) (data : List Nat) (pos : Nat) : Option (List Nat) :=
  match fuel with
  | 0 => none
  | fuel2 + 1 =>
    if hlt : pos < data.length then
      let push_len := data.get ⟨pos, hlt⟩
      let pos1 := pos + 1
      if push_len = 0 then extractLoopF fuel2 data pos1
      else if push_len ≤ 75 then
        if push_len = 32 then
          let p := (data.drop pos1).take 32
          if scriptSigHeuristic p then some p
          else extractLoopF fuel2 data (pos1 + 32)
        else extractLoopF fuel2 data (pos1 + push_len)
      else if push_len = 76 then
        match data.get? pos1 with
        | some actual => extractLoopF fuel2 data (pos1 + 1 + actual)
        | none => none
      else if push_len = 77 then
        extractLoopF fuel2 data (pos1 + 2 + leBytes2 ((data.drop pos1).take 2))
      else extractLoopF fuel2 data pos1
    else none

/-- `extract_preimage_from_scriptsig`: decode the hex, run the loop,
return the hex of the found push (the source builds the hex string with
`.hex()` inside the loop). -/
def extract_preimage_from_scriptsig (scriptsig_hex : String) : Option String :=
  match hexDecode scriptsig_hex with
  | some data => (extractLoopF (data.length + 1) data 0).map bytesToHex
  | none => none


/-! ## Helper lemmas (shared) -/

theorem lookup_setKey_self {α : Type} (m : List (String × α)) (k : String) (v : α) :
    lookupKey (setKey m k v) k = some v := by
  induction m with
  | nil => simp [setKey, lookupKey]
  | cons hd tl ih =>
    obtain ⟨k2, v2⟩ := hd
    by_cases hk : k2 = k
    · simp [setKey, hk, lookupKey]
    · simp [setKey, hk, lookupKey, ih]

theorem lookup_append_single {α : Type} (m : List (String × α)) (k : String) (v : α)
    (hnew : containsKeyB m k = false) : lookupKey (m ++ [(k, v)]) k = some v := by
  induction m with
  | nil => simp [lookupKey]
  | cons hd tl ih =>
    obtain ⟨k2, v2⟩ := hd
    by_cases hk : k2 = k
    · simp [containsKeyB, lookupKey, hk] at hnew
    · simp only [containsKeyB, lookupKey, hk, if_neg] at hnew ⊢
      exact ih hnew

theorem derive_lp_state (s : SwapState) : (derive_states s).lp_state = (lpPairOf s).1 := rfl

theorem derive_taker_state (s : SwapState) :
    (derive_states s).taker_state = (takerPairOf s).1 := rfl

/-! ## Claim theorems -/

/-- C1: at module load the SDK server asserts
`T_USDC_SECONDS ≥ T_KPIV_SECONDS + T_BUFFER_SECONDS`; the assertion
succeeds exactly on configurations satisfying the inequality and raises
(fatal) otherwise; `T_KPIV_SECONDS = T_KPIV_BLOCKS × 60`, and the
shipped values `14400 ≥ 7200 + 1800` pass. -/
theorem C1_timelock_policy_assert :
    (∀ tUsdc tKpiv tBuffer : Nat,
        (timelockAssert tUsdc tKpiv tBuffer = Except.ok () ↔ tKpiv + tBuffer ≤ tUsdc) ∧
        ((∃ msg, timelockAssert tUsdc tKpiv tBuffer = Except.error msg) ↔
          tUsdc < tKpiv + tBuffer)) ∧
    T_KPIV_SECONDS = T_KPIV_BLOCKS * 60 ∧
    sdkServerInit = Except.ok () ∧
    T_USDC_SECONDS = 14400 ∧ T_KPIV_SECONDS = 7200 ∧ T_BUFFER_SECONDS = 1800 := by
  refine ⟨fun u k b => ?_, by decide, by rfl, by decide, by decide, by decide⟩
  unfold timelockAssert
  by_cases h : k + b ≤ u
  all_goals refine ⟨?_, ?_⟩ <;> simp [h] <;> omega

/-- C10: for every HTLC record and current height, `is_claimable` and
`is_refundable` never both hold: claimable needs status pending/locked
and height strictly below expiry, refundable needs status not
claimed/refunded and height at least expiry. -/
theorem C10_claimable_refundable_exclusive :
    (∀ (r : NativeHtlc) (h : Int),
        (is_claimable (some r) h = true ↔
          (r.status = "pending" ∨ r.status = "locked") ∧ h < r.expiry_height) ∧
        (is_refundable (some r) h = true ↔
          ¬(r.status = "claimed" ∨ r.status = "refunded") ∧ r.expiry_height ≤ h)) ∧
    (∀ (htlc : Option NativeHtlc) (h : Int),
        ¬(is_claimable htlc h = true ∧ is_refundable htlc h = true)) := by
  constructor
  · intro r h
    constructor
    · simp only [is_claimable]
      split_ifs with h1 h2 <;> simp_all
    · simp only [is_refundable]
      split_ifs with h1 h2 <;> simp_all
  · rintro htlc h ⟨hc, hr⟩
    cases htlc with
    | none => simp [is_claimable] at hc
    | some r =>
      simp only [is_claimable] at hc
      simp only [is_refundable] at hr
      split_ifs at hc hr
      all_goals simp_all

/-- A swap state with the native (KPIV) HTLC locked, the quote (USDC)
HTLC locked, no secret revealed, quote timelock not yet expired. -/
def swapStateNativeQuoteLocked : SwapState :=
  { swap_id := "0xswap1", hashlock := "aa", piv_lot_outpoint := some "tx0:0",
    piv_lot_status := "locked", evm_locked := true, evm_timelock := 2000,
    evm_time_left := 100 }

/-- C4 counterexample: with the native HTLC LOCKED and the quote HTLC
LOCKED (no earlier rule matching: nothing claimed, no secret revealed,
timelock unexpired), `derive_states` yields LP = `taken` as claimed but
taker = `locked`, not `claimable` — the claim is false at this input. -/
theorem C4_counterexample :
    (derive_states swapStateNativeQuoteLocked).lp_state = "taken" ∧
    (derive_states swapStateNativeQuoteLocked).taker_state = "locked" ∧
    (derive_states swapStateNativeQuoteLocked).taker_state ≠ "claimable" := by
  decide

/-- C4 amended: if the native lot status is `"locked"`, the quote HTLC
is locked and unclaimed, no secret is revealed and the quote timelock
has not expired, `derive_states` yields taker = LOCKED (not CLAIMABLE)
and LP = TAKEN; `claimable` additionally requires a revealed secret. -/
theorem C4_amended (s : SwapState)
    (h1 : s.piv_lot_status = "locked") (h2 : s.evm_locked = true)
    (h3 : s.evm_claimed = false) (h4 : s.secret_revealed = false)
    (h5 : 0 < s.evm_time_left) :
    (derive_states s).lp_state = "taken" ∧ (derive_states s).taker_state = "locked" := by
  constructor
  · rw [derive_lp_state]
    unfold lpPairOf
    rw [h1]
    simp [h2, h3]
    split <;> rfl
  · rw [derive_taker_state]
    unfold takerPairOf
    rw [h1]
    have h6 : ¬(s.evm_time_left ≤ 0) := by omega
    simp [h2, h4, h6]

/-- C4 amended, witnessed at the counterexample state. -/
theorem C4_amended_witness :
    (derive_states swapStateNativeQuoteLocked).lp_state = "taken" ∧
    (derive_states swapStateNativeQuoteLocked).taker_state = "locked" :=
  C4_amended swapStateNativeQuoteLocked (by decide) (by decide) (by decide) (by decide)
    (by decide)

/-- A quote-side swap state observed exactly at `now = quote_timelock`
(`evm_time_left = max(0, 1000 - 1000) = 0`). -/
def quoteBoundaryState : SwapState :=
  { swap_id := "0xswap2", hashlock := "bb", evm_locked := true,
    evm_timelock := 1000, evm_time_left := evmTimeLeft 1000 1000 }

/-- A native HTLC whose expiry height is 500, still locked. -/
def nativeBoundaryHtlc : NativeHtlc :=
  { outpoint := "tx1:0", hashlock := "bb", status := "locked", expiry_height := 500 }

/-- C8 counterexample: at `now == quote_timelock` exactly the derived
taker state is already REFUNDABLE (`evm_time_left ≤ 0` is non-strict),
and at current height equal to the native expiry height exactly
`is_refundable` is already true — the claimed strict boundary is false
at these inputs. -/
theorem C8_counterexample :
    (derive_states quoteBoundaryState).taker_state = "refundable" ∧
    is_refundable (some nativeBoundaryHtlc) 500 = true := by
  decide

/-- C8 amended: refund acceptance is boundary-inclusive in the state
machine: the derived taker state is REFUNDABLE iff `quote_timelock ≤ now`
(so already at equality), and `is_refundable` holds iff
`expiry_height ≤ height` (already at equality); only the SDK server's
`api_swap_status` uses the strict comparison, reporting REFUNDABLE iff
`quote_timelock < now` (hence not at equality, but at `now = timelock + 1`). -/
theorem C8_amended :
    (∀ (s : SwapState) (tl now : Int),
        s.evm_locked = true → s.secret_revealed = false →
        s.piv_lot_status ≠ "claimed" → s.evm_time_left = evmTimeLeft tl now →
        ((derive_states s).taker_state = "refundable" ↔ tl ≤ now)) ∧
    (∀ (r : NativeHtlc) (h : Int),
        r.status ≠ "claimed" → r.status ≠ "refunded" →
        (is_refundable (some r) h = true ↔ r.expiry_height ≤ h)) ∧
    (∀ (e : EvmHtlc) (kpivSent : Bool) (now : Int),
        e.refunded = false → e.withdrawn = false →
        (apiSwapState (some e) kpivSent now = "REFUNDABLE" ↔ e.timelock < now)) := by
  refine ⟨?_, ?_, ?_⟩
  · intro s tl now h1 h2 h3 h4
    rw [derive_taker_state]
    unfold takerPairOf
    rw [h4]
    unfold evmTimeLeft
    by_cases hle : tl ≤ now
    · have hz : max 0 (tl - now) ≤ 0 := by omega
      simp [h1, h2, h3, hz, hle]
    · have hz : ¬(max 0 (tl - now) ≤ 0) := by omega
      simp [h1, h2, h3, hz, hle]
  · intro r h h1 h2
    simp only [is_refundable]
    split_ifs with hs hh
    all_goals simp_all
  · intro e kpivSent now h1 h2
    simp only [apiSwapState]
    rw [h1, h2]
    by_cases ht : e.timelock < now
    · simp [ht]
    · simp [ht]
      intro hfalse
      cases kpivSent <;> simp_all

/-- C8 amended, witnessed at the boundary instants. -/
theorem C8_amended_witness :
    ((derive_states quoteBoundaryState).taker_state = "refundable" ↔ (1000 : Int) ≤ 1000) ∧
    (is_refundable (some nativeBoundaryHtlc) 500 = true ↔
      nativeBoundaryHtlc.expiry_height ≤ 500) ∧
    (apiSwapState (some { timelock := 1000 }) false 1001 = "REFUNDABLE" ↔
      (1000 : Int) < 1001) :=
  ⟨C8_amended.1 quoteBoundaryState 1000 1000 (by decide) (by decide) (by decide) rfl,
   C8_amended.2.1 nativeBoundaryHtlc 500 (by decide) (by decide),
   C8_amended.2.2 { timelock := 1000 } false 1001 rfl rfl⟩

/-! More shared helper lemmas: `derive_states` writes only the four
derived fields, so every field it reads is preserved. -/

theorem derive_piv_lot_status (s : SwapState) :
    (derive_states s).piv_lot_status = s.piv_lot_status := rfl

theorem derive_piv_lot_outpoint (s : SwapState) :
    (derive_states s).piv_lot_outpoint = s.piv_lot_outpoint := rfl

theorem derive_evm_claimed (s : SwapState) :
    (derive_states s).evm_claimed = s.evm_claimed := rfl

theorem derive_evm_locked (s : SwapState) :
    (derive_states s).evm_locked = s.evm_locked := rfl

theorem derive_secret (s : SwapState) : (derive_states s).secret = s.secret := rfl

theorem derive_secret_revealed (s : SwapState) :
    (derive_states s).secret_revealed = s.secret_revealed := rfl

theorem derive_evm_time_left (s : SwapState) :
    (derive_states s).evm_time_left = s.evm_time_left := rfl

theorem derive_lp_action (s : SwapState) :
    (derive_states s).lp_action = (lpPairOf s).2 := rfl

theorem derive_taker_action (s : SwapState) :
    (derive_states s).taker_action = (takerPairOf s).2 := rfl

theorem lpPairOf_derive (s : SwapState) : lpPairOf (derive_states s) = lpPairOf s := by
  unfold lpPairOf
  simp only [derive_piv_lot_status, derive_piv_lot_outpoint, derive_evm_claimed,
    derive_evm_locked, derive_secret, derive_lp_state, derive_lp_action]
  split_ifs with h1 h2 h3 h4 h5
  · rfl
  · rfl
  · rfl
  · rfl
  · rfl
  · simp [lpPairOf, h1, h2, h3, h4, h5]

theorem takerPairOf_derive (s : SwapState) :
    takerPairOf (derive_states s) = takerPairOf s := by
  unfold takerPairOf
  simp only [derive_piv_lot_status, derive_piv_lot_outpoint, derive_evm_locked,
    derive_secret_revealed, derive_evm_time_left, derive_taker_state, derive_taker_action]
  split_ifs with h1 h2 h3 h4 h5
  · rfl
  · rfl
  · rfl
  · rfl
  · rfl
  · simp [takerPairOf, h1, h2, h3, h4, h5]

/-- The all-zero 64-hex-char string (a syntactically valid hashlock and
a syntactically valid 32-byte preimage). -/
def zeros64 : String :=
  "0000000000000000000000000000000000000000000000000000000000000000"

/-- C5 counterexample: the empty (zero-byte) preimage hex-decodes to
zero bytes, and `verify_preimage` ACCEPTS it when the hashlock is
SHA-256 of the empty byte string — so "a zero-byte preimage is
rejected" is false for this hashlock. -/
theorem C5_counterexample :
    hexDecode "" = some [] ∧
    verify_preimage "e3b0c44298fc1c149afbf4c8996fb92427ae41e4649b934ca495991b7852b855" ""
      = true := by
  exact ⟨rfl, by decide⟩

/-- C5 amended: `verify_preimage H S` is true iff `S` is valid hex and
`SHA256(hex-decode S)` equals `H` case-insensitively; consequently a
zero-byte preimage is rejected for every hashlock other than SHA-256 of
the empty string, and a 32-byte (indeed any) preimage whose SHA-256
does not match the hashlock is rejected. -/
theorem C5_amended :
    (∀ hashlock preimage : String,
        verify_preimage hashlock preimage = true ↔
          ∃ bs, hexDecode preimage = some bs ∧ sha256Hex bs = strLower hashlock) ∧
    (∀ hashlock : String, strLower hashlock ≠ sha256Hex [] →
        verify_preimage hashlock "" = false) ∧
    (∀ (hashlock preimage : String) (bs : List Nat),
        hexDecode preimage = some bs → sha256Hex bs ≠ strLower hashlock →
        verify_preimage hashlock preimage = false) := by
  refine ⟨?_, ?_, ?_⟩
  · intro hl pre
    cases hd : hexDecode pre <;> simp [verify_preimage, hd, beq_iff_eq]
  · intro hl hne
    have hd : hexDecode "" = some [] := rfl
    simp [verify_preimage, hd, beq_eq_false_iff_ne]
    exact fun h => hne h.symm
  · intro hl pre bs hd hne
    simp [verify_preimage, hd, beq_eq_false_iff_ne]
    exact hne

/-- C5 amended, witnessed: a zero-byte preimage is rejected for an
ordinary hashlock, and the all-zero 32-byte preimage is rejected for
the all-zero hashlock (their SHA-256 digests differ). -/
theorem C5_amended_witness :
    verify_preimage "aa" "" = false ∧ verify_preimage zeros64 zeros64 = false :=
  ⟨C5_amended.2.1 "aa" (by decide),
   C5_amended.2.2 zeros64 zeros64 (List.replicate 32 0) (by decide) (by decide)⟩

/-- Oracles for an LP watcher connected to nothing: no registrations,
all RPCs fail, no key. -/
def oraclesEmpty : LPOracles :=
  { takerRegistry := fun _ => none, createRpc := fun _ _ _ _ => none,
    htlcList := fun _ => [], evmPrivateKey := "", sendClaimTx := fun _ _ => none }

def pendingSwapAA : PendingSwap := { hashlock := "aa" }

def lpStateWithAA : LPWatcherState := { pending := [("aa", pendingSwapAA)] }

def lockAA : LockEvent := { swap_id := "0xid1", amount := 1, hashlock := "aa", timelock := 0 }

/-- C9: the state machine is idempotent — `derive_states` is idempotent
on every swap state, and re-processing a lock whose hashlock is already
in `pending_swaps` leaves the LP watcher state unchanged. -/
theorem C9_idempotence :
    (∀ s : SwapState, derive_states (derive_states s) = derive_states s) ∧
    (∀ (o : LPOracles) (st : LPWatcherState) (lock : LockEvent) (now : Int),
        containsKeyB st.pending lock.hashlock = true →
        process_new_lock o st lock now = st) := by
  constructor
  · intro s
    have hstep : derive_states (derive_states s) =
        { derive_states s with
            lp_state := (lpPairOf (derive_states s)).1
            lp_action := (lpPairOf (derive_states s)).2
            taker_state := (takerPairOf (derive_states s)).1
            taker_action := (takerPairOf (derive_states s)).2 } := rfl
    rw [hstep, lpPairOf_derive s, takerPairOf_derive s]
    rfl
  · intro o st lock now h
    unfold process_new_lock
    simp [h]

/-- C9, witnessed at a concrete state and a duplicate lock event. -/
theorem C9_idempotence_witness :
    derive_states (derive_states swapStateNativeQuoteLocked) =
      derive_states swapStateNativeQuoteLocked ∧
    process_new_lock oraclesEmpty lpStateWithAA lockAA 0 = lpStateWithAA :=
  ⟨C9_idempotence.1 swapStateNativeQuoteLocked,
   C9_idempotence.2 oraclesEmpty lpStateWithAA lockAA 0 (by decide)⟩

def hash64a : String :=
  "aaaaaaaaaaaaaaaaaaaaaaaaaaaaaaaaaaaaaaaaaaaaaaaaaaaaaaaaaaaaaaaa"

/-- A taker registry that already holds a registration for `hash64a`. -/
def regWithTaker : List (String × String) := [(hash64a, "addrOld")]

/-- C7 counterexample: a second `/api/register_taker` POST with a
hashlock that is already registered SUCCEEDS and OVERWRITES the stored
taker address — the registry does not reject duplicates. -/
theorem C7_counterexample :
    lookupKey regWithTaker hash64a = some "addrOld" ∧
    (register_taker regWithTaker (some hash64a) (some "addrNew")).2 =
      Except.ok (hash64a, "addrNew") ∧
    lookupKey (register_taker regWithTaker (some hash64a) (some "addrNew")).1 hash64a =
      some "addrNew" :=
  ⟨by decide, by rfl, by decide⟩

/-- C7 amended: both registration endpoints accept a hashlock that is
already registered: after field validation the handler unconditionally
stores the new record, overwriting any existing registration for the
same hashlock; no `DuplicateHashlock` rejection exists. -/
theorem C7_amended :
    (∀ (reg : List (String × String)) (h a : String),
        pyTruthyStr (some h) = true → pyTruthyStr (some a) = true →
        (normalizeHashlock h).length = 64 →
        (register_taker reg (some h) (some a)).2 =
          Except.ok (normalizeHashlock h, a) ∧
        lookupKey (register_taker reg (some h) (some a)).1 (normalizeHashlock h) =
          some a) ∧
    (∀ (pending : List (String × RegisteredSwap)) (h t l : String) (now : Int),
        pyTruthyStr (some h) = true → pyTruthyStr (some t) = true →
        pyTruthyStr (some l) = true →
        (strStartsWith t "x" = true ∨ strStartsWith t "y" = true) →
        (api_register_swap pending (some h) (some t) (some l) now).2 = Except.ok h ∧
        lookupKey (api_register_swap pending (some h) (some t) (some l) now).1 h =
          some { hashlock := h, taker_kpiv_addr := t, lot_id := l,
                 registered_at := now, kpiv_sent := false }) := by
  constructor
  · intro reg h a h1 h2 h3
    unfold register_taker
    simp [h1, h2, h3, lookup_setKey_self]
  · intro pending h t l now h1 h2 h3 h4
    unfold api_register_swap
    simp [h1, h2, h3, h4, lookup_setKey_self]

/-- C7 amended, witnessed: overwriting an existing registration and a
fresh `/api/register` call. -/
theorem C7_amended_witness :
    ((register_taker regWithTaker (some hash64a) (some "addrNew")).2 =
      Except.ok (normalizeHashlock hash64a, "addrNew") ∧
     lookupKey (register_taker regWithTaker (some hash64a) (some "addrNew")).1
       (normalizeHashlock hash64a) = some "addrNew") ∧
    ((api_register_swap [] (some "aa") (some "yAddr") (some "lot1") 5).2 =
      Except.ok "aa" ∧
     lookupKey (api_register_swap [] (some "aa") (some "yAddr") (some "lot1") 5).1 "aa" =
      some { hashlock := "aa", taker_kpiv_addr := "yAddr", lot_id := "lot1",
             registered_at := 5, kpiv_sent := false }) :=
  ⟨C7_amended.1 regWithTaker hash64a "addrNew" (by decide) (by decide) (by decide),
   C7_amended.2 [] "aa" "yAddr" "lot1" 5 (by decide) (by decide) (by decide)
     (Or.inr (by decide))⟩

def hash64c : String :=
  "cccccccccccccccccccccccccccccccccccccccccccccccccccccccccccccccc"

/-- A detected quote-side lock whose timelock (0, i.e. already elapsed)
violates the §4.3 policy against ANY reading of wall time and native
expiry. -/
def lockViolatingPolicy : LockEvent :=
  { swap_id := "0xswapC2", amount := 5, hashlock := hash64c, timelock := 0 }

/-- Oracles where the taker for `hash64c` is registered, the
`htlc_create_kpiv` RPC succeeds, and everything else is inert. -/
def oraclesForC2 : LPOracles :=
  { takerRegistry := fun h => if h = hash64c then some "yTakerAddr" else none,
    createRpc := fun _ _ _ _ => some "txidC2",
    htlcList := fun _ => [], evmPrivateKey := "", sendClaimTx := fun _ _ => none }

/-- Helper: `try_create_kpiv_htlc` creates the native HTLC whenever the
swap is pending and uncreated, the taker is registered and the RPC
succeeds — its hypotheses mention no timelock. -/
theorem try_create_creates (o : LPOracles) (st : LPWatcherState) (h : String)
    (swap : PendingSwap) (addr txid : String)
    (hlook : lookupKey st.pending h = some swap)
    (hnc : swap.kpiv_htlc_created = false)
    (hreg : o.takerRegistry (strip0x swap.hashlock) = some addr)
    (hrpc : o.createRpc (strip0x swap.hashlock) swap.kpiv_amount addr 120 = some txid) :
    (try_create_kpiv_htlc o st h).createdHtlcs =
      st.createdHtlcs ++
        [{ hashlock := strip0x swap.hashlock, amount := swap.kpiv_amount,
           recipient := addr, expiry_blocks := 120, txid := txid }] := by
  unfold try_create_kpiv_htlc
  rw [hlook]
  simp only [hnc, Bool.false_eq_true, if_false]
  unfold get_taker_kpiv_address
  rw [hreg]
  simp only
  unfold create_kpiv_htlc
  rw [hrpc]

/-- Helper: `process_new_lock` on a fresh hashlock with a registered
taker and a succeeding RPC always creates the native HTLC with the
fixed default expiry 120 — independently of `lock.timelock`. -/
theorem process_new_lock_creates (o : LPOracles) (st : LPWatcherState)
    (lock : LockEvent) (now : Int) (addr txid : String)
    (hnew : containsKeyB st.pending lock.hashlock = false)
    (hreg : o.takerRegistry (strip0x lock.hashlock) = some addr)
    (hrpc : o.createRpc (strip0x lock.hashlock) (lock.amount / LP_PRICE) addr 120 =
      some txid) :
    (process_new_lock o st lock now).createdHtlcs =
      st.createdHtlcs ++
        [{ hashlock := strip0x lock.hashlock, amount := lock.amount / LP_PRICE,
           recipient := addr, expiry_blocks := 120, txid := txid }] := by
  unfold process_new_lock
  rw [if_neg (by simp [hnew])]
  exact try_create_creates o _ lock.hashlock
    { hashlock := lock.hashlock, polygon_swap_id := lock.swap_id,
      usdc_amount := lock.amount, kpiv_amount := lock.amount / LP_PRICE,
      polygon_timelock := lock.timelock, created_at := now }
    addr txid (lookup_append_single _ _ _ hnew) rfl hreg hrpc

/-- C2 counterexample: processing a lock with quote timelock `0`
(violating the policy: `0 < now + 120·60 + buffer` at the creation time
`now = 1000000`) still creates the native KPIV HTLC as soon as the
taker is registered — `process_new_lock`/`try_create_kpiv_htlc` contain
no timelock-policy check at all. -/
theorem C2_counterexample :
    (process_new_lock oraclesForC2 {} lockViolatingPolicy 1000000).createdHtlcs =
      [{ hashlock := hash64c, amount := 100, recipient := "yTakerAddr",
         expiry_blocks := 120, txid := "txidC2" }] ∧
    lockViolatingPolicy.timelock < 1000000 + 120 * 60 + 1800 := by
  constructor
  · rw [process_new_lock_creates oraclesForC2 {} lockViolatingPolicy 1000000
      "yTakerAddr" "txidC2" (by decide) (by decide) rfl]
    have hamount : lockViolatingPolicy.amount / LP_PRICE = (100 : Rat) := by
      norm_num [lockViolatingPolicy, LP_PRICE]
    have hhash : strip0x lockViolatingPolicy.hashlock = hash64c := by decide
    rw [hamount, hhash]
    rfl
  · decide

/-- C2 amended: for every new lock whose taker is registered and whose
`htlc_create_kpiv` RPC succeeds, the LP creates the native HTLC (with
the fixed default expiry of 120 blocks) regardless of the observed
quote timelock — no timelock-policy verification is performed before
creation. -/
theorem C2_amended (o : LPOracles) (st : LPWatcherState) (lock : LockEvent) (now : Int)
    (addr txid : String)
    (hnew : containsKeyB st.pending lock.hashlock = false)
    (hreg : o.takerRegistry (strip0x lock.hashlock) = some addr)
    (hrpc : o.createRpc (strip0x lock.hashlock) (lock.amount / LP_PRICE) addr 120 =
      some txid) :
    (process_new_lock o st lock now).createdHtlcs =
      st.createdHtlcs ++
        [{ hashlock := strip0x lock.hashlock, amount := lock.amount / LP_PRICE,
           recipient := addr, expiry_blocks := 120, txid := txid }] :=
  process_new_lock_creates o st lock now addr txid hnew hreg hrpc

/-- C2 amended, witnessed at the policy-violating lock. -/
theorem C2_amended_witness :
    (process_new_lock oraclesForC2 {} lockViolatingPolicy 1000000).createdHtlcs =
      ({} : LPWatcherState).createdHtlcs ++
        [{ hashlock := strip0x lockViolatingPolicy.hashlock,
           amount := lockViolatingPolicy.amount / LP_PRICE,
           recipient := "yTakerAddr", expiry_blocks := 120, txid := "txidC2" }] :=
  C2_amended oraclesForC2 {} lockViolatingPolicy 1000000 "yTakerAddr" "txidC2"
    (by decide) (by decide) rfl

def swapC3 : PendingSwap :=
  { hashlock := zeros64, polygon_swap_id := "0xswapC3", kpiv_htlc_created := true }

/-- A native HTLC view reported as claimed with the all-zero "preimage"
(whose SHA-256 does NOT equal the all-zero hashlock). -/
def htlcC3 : NativeHtlc :=
  { outpoint := "opC3:0", hashlock := zeros64, status := "claimed",
    preimage := some zeros64, expiry_height := 0 }

def stWithCreatedSwap : LPWatcherState := { pending := [(zeros64, swapC3)] }

def revealOracles : LPOracles :=
  { takerRegistry := fun _ => none, createRpc := fun _ _ _ _ => none,
    htlcList := fun h => if h = zeros64 then [htlcC3] else [],
    evmPrivateKey := "keyC3", sendClaimTx := fun _ _ => some "0xtxC3" }

/-- Helper: `check_for_reveals` on a single pending swap with a created
native HTLC submits the quote claim carrying exactly the preimage the
native chain reported — under no hypothesis about `SHA256(preimage)`. -/
theorem check_for_reveals_submits (o : LPOracles) (st : LPWatcherState)
    (h : String) (swap : PendingSwap) (p tx : String) (htlc : NativeHtlc)
    (hp : st.pending = [(h, swap)])
    (hnc : swap.usdc_claimed = false) (hcr : swap.kpiv_htlc_created = true)
    (hlist : o.htlcList (strip0x h) = [htlc])
    (hst : htlc.status = "claimed") (hpre : htlc.preimage = some p)
    (hne : ¬(p = "")) (hkey : ¬(o.evmPrivateKey = ""))
    (htx : o.sendClaimTx swap.polygon_swap_id p = some tx) :
    (check_for_reveals o st).submittedClaims =
      st.submittedClaims ++ [(swap.polygon_swap_id, p)] := by
  unfold check_for_reveals
  rw [hp]
  simp only [List.map_cons, List.map_nil, List.foldl_cons, List.foldl_nil]
  unfold checkRevealStep
  rw [hp]
  simp [lookupKey, hnc, hcr, hst, hpre, hne, hkey, htx, get_htlc_by_hashlock, hlist,
    claim_usdc]

/-- C3 counterexample: the LP's reveal loop extracts the reported
preimage for a claimed native HTLC and submits the quote-side claim
with it even though `SHA256(preimage) ≠ H` (here both the hashlock and
the "preimage" are 32 zero bytes, and SHA-256 of 32 zero bytes is not
zero) — no verification guards the submission. -/
theorem C3_counterexample :
    (check_for_reveals revealOracles stWithCreatedSwap).submittedClaims =
      [("0xswapC3", zeros64)] ∧
    sha256Hex ((hexDecode zeros64).getD []) ≠ strLower zeros64 ∧
    verify_preimage zeros64 zeros64 = false := by
  refine ⟨?_, by decide, by decide⟩
  rw [check_for_reveals_submits revealOracles stWithCreatedSwap zeros64 swapC3
      zeros64 "0xtxC3" htlcC3 rfl rfl rfl (by decide) rfl rfl (by decide) (by decide) rfl]
  rfl

/-- C3 amended: for each pending swap with a created native HTLC and an
unclaimed quote side, when the native chain reports the HTLC claimed
with a nonempty preimage and the LP key is configured and the send
succeeds, the LP submits to the quote chain exactly the reported
preimage, WITHOUT verifying `SHA256(preimage) == H` first. -/
theorem C3_amended (o : LPOracles) (st : LPWatcherState)
    (h : String) (swap : PendingSwap) (p tx : String) (htlc : NativeHtlc)
    (hp : st.pending = [(h, swap)])
    (hnc : swap.usdc_claimed = false) (hcr : swap.kpiv_htlc_created = true)
    (hlist : o.htlcList (strip0x h) = [htlc])
    (hst : htlc.status = "claimed") (hpre : htlc.preimage = some p)
    (hne : ¬(p = "")) (hkey : ¬(o.evmPrivateKey = ""))
    (htx : o.sendClaimTx swap.polygon_swap_id p = some tx) :
    (check_for_reveals o st).submittedClaims =
      st.submittedClaims ++ [(swap.polygon_swap_id, p)] :=
  check_for_reveals_submits o st h swap p tx htlc hp hnc hcr hlist hst hpre hne hkey htx

/-- C3 amended, witnessed at the mismatching preimage. -/
theorem C3_amended_witness :
    (check_for_reveals revealOracles stWithCreatedSwap).submittedClaims =
      stWithCreatedSwap.submittedClaims ++ [(swapC3.polygon_swap_id, zeros64)] :=
  C3_amended revealOracles stWithCreatedSwap zeros64 swapC3 zeros64 "0xtxC3" htlcC3
    rfl rfl rfl (by decide) rfl rfl (by decide) (by decide) rfl

/-- Hex of a 32-byte push that is neither all-zero nor 0x02/0x03-prefixed
and whose SHA-256 matches no particular hashlock. -/
def p01hex : String :=
  "0100000000000000000000000000000000000000000000000000000000000000"

/-- A script-sig consisting of the single direct push of those 32 bytes. -/
def scriptSigC6 : String := "20" ++ p01hex

/-- C6 counterexample: the parser returns the 32-byte push even though
its SHA-256 (`01d0fabd...`) matches no known open hashlock (e.g. the
singleton registry holding `e3b0c442...`): no hash-matching against
open hashlocks is performed, so "for every script-sig containing no
such push it returns nothing" fails at this input. -/
theorem C6_counterexample :
    extract_preimage_from_scriptsig scriptSigC6 = some p01hex ∧
    sha256Hex ((hexDecode p01hex).getD []) ≠
      "e3b0c44298fc1c149afbf4c8996fb92427ae41e4649b934ca495991b7852b855" := by
  exact ⟨by decide, by decide⟩

/-- Helper: whatever `extractLoopF` returns is a (possibly truncated)
32-byte direct push from the data that passes the all-zero/0x02/0x03
heuristic — the loop checks nothing else. -/
theorem extractLoopF_sound (fuel : Nat) (data : List Nat) :
    ∀ (pos : Nat) (p : List Nat), extractLoopF fuel data pos = some p →
      scriptSigHeuristic p = true ∧
      ∃ i, data.get? i = some 32 ∧ p = (data.drop (i + 1)).take 32 := by
  induction fuel with
  | zero => intro pos p hsome; simp [extractLoopF] at hsome
  | succ f ih =>
    intro pos p hsome
    unfold extractLoopF at hsome
    by_cases hlt : pos < data.length
    · rw [dif_pos hlt] at hsome
      simp only at hsome
      split_ifs at hsome with h0 h75 h32 hheur
      · exact ih _ _ hsome
      · -- the successful 32-byte push
        rw [Option.some_inj] at hsome
        subst hsome
        refine ⟨hheur, pos, ?_, rfl⟩
        rw [List.get?_eq_get hlt, h32]
      · exact ih _ _ hsome
      · exact ih _ _ hsome
      · -- the PUSHDATA1 branch: Python may raise on `data[pos]`
        cases hget : data.get? (pos + 1) with
        | none => rw [hget] at hsome; simp at hsome
        | some actual => rw [hget] at hsome; exact ih _ _ hsome
      · exact ih _ _ hsome
      · exact ih _ _ hsome
    · rw [dif_neg hlt] at hsome
      simp at hsome

/-- C6 amended: the parser iterates push opcodes (stepping over
PUSHDATA1/PUSHDATA2 payloads without considering them) and returns the
first DIRECT 32-byte push that is not all zero bytes and whose first
byte is not 0x02/0x03 — it performs NO SHA-256 matching against known
hashlocks; every returned value is such a push. -/
theorem C6_amended (s p : String)
    (hres : extract_preimage_from_scriptsig s = some p) :
    ∃ (data bs : List Nat) (i : Nat),
      hexDecode s = some data ∧ data.get? i = some 32 ∧
      bs = (data.drop (i + 1)).take 32 ∧ p = bytesToHex bs ∧
      bs ≠ List.replicate 32 0 ∧ bs.head? ≠ some 2 ∧ bs.head? ≠ some 3 := by
  unfold extract_preimage_from_scriptsig at hres
  cases hd : hexDecode s with
  | none => rw [hd] at hres; simp at hres
  | some data =>
    rw [hd] at hres
    rw [Option.map_eq_some'] at hres
    obtain ⟨bs, hbs, hp⟩ := hres
    obtain ⟨hheur, i, hi, hbs_eq⟩ := extractLoopF_sound _ data 0 bs hbs
    simp only [scriptSigHeuristic, Bool.and_eq_true, Bool.not_eq_true',
      beq_eq_false_iff_ne] at hheur
    exact ⟨data, bs, i, rfl, hi, hbs_eq, hp.symm, hheur.1.1, hheur.1.2, hheur.2⟩

/-- C6 amended, witnessed at the single-push script-sig. -/
theorem C6_amended_witness :
    ∃ (data bs : List Nat) (i : Nat),
      hexDecode scriptSigC6 = some data ∧ data.get? i = some 32 ∧
      bs = (data.drop (i + 1)).take 32 ∧ p01hex = bytesToHex bs ∧
      bs ≠ List.replicate 32 0 ∧ bs.head? ≠ some 2 ∧ bs.head? ≠ some 3 :=
  C6_amended scriptSigC6 p01hex (by decide)

/-- C1, witnessed at the shipped configuration. -/
theorem C1_timelock_policy_assert_witness :
    (timelockAssert 14400 7200 1800 = Except.ok () ↔ 7200 + 1800 ≤ 14400) ∧
    ((∃ msg, timelockAssert 14400 7200 1800 = Except.error msg) ↔ 14400 < 7200 + 1800) :=
  C1_timelock_policy_assert.1 14400 7200 1800

/-- C10, witnessed at a concrete record and height. -/
theorem C10_claimable_refundable_exclusive_witness :
    ¬(is_claimable (some nativeBoundaryHtlc) 500 = true ∧
      is_refundable (some nativeBoundaryHtlc) 500 = true) :=
  C10_claimable_refundable_exclusive.2 (some nativeBoundaryHtlc) 500

end Bathron
